import Mathlib

/-
  Shallow embedding of the gesture_data_collector sensor pipeline.

  Source files embedded here:
  * plot_from_json.py   — transform_value, load_gesture_data, convert_frame_data
  * live_plotter.py     — FingerWindow (rolling display window), LivePlotter
  * data_processor.py   — DataProcessor.save_gesture
  * advanced_plotter.py — column-range selection of plot_4way_comparison /
                          plot_2way_comparison

  Python floats are modelled as rationals; fallible conversions return Option.
-/

namespace GestureData

/-- Input to `transform_value`: either a value on which Python's `float()`
succeeds (modelled by its rational value) or one on which it raises. -/
inductive RawInput where
  | num (q : ℚ)
  | nonNum
deriving DecidableEq

/-- Python `float(val)`: succeeds exactly on numeric input. -/
def floatOf : RawInput → Option ℚ
  | .num q => some q
  | .nonNum => none

/-- `transform_value(val, is_accelerometer)` from plot_from_json.py lines 16-31.
The copies in live_plotter.py lines 292-309 and advanced_plotter.py lines 18-33
are the same function (4096 vs 4096.0 is the same number).  The `try` block
catches exactly the failure of `float(val)`. -/
def transform_value (val : RawInput) (is_accelerometer : Bool) : Option ℚ :=
  match floatOf val with
  | none => none
  | some v =>
    if is_accelerometer then
      if v ≥ 32768 then some ((v - 65536) / 4096) else some (v / 4096)
    else
      if v ≥ 32768 then some ((v - 65536) / 32.8) else some (v / 32.8)

/-- The claimed signed reinterpretation of a raw 16-bit value. -/
def signed16 (r : ℕ) : ℤ := if 32768 ≤ r then (r : ℤ) - 65536 else (r : ℤ)

lemma transform_value_num (r : ℕ) :
    transform_value (.num r) true = some (((signed16 r : ℤ) : ℚ) / 4096) ∧
    transform_value (.num r) false = some (((signed16 r : ℤ) : ℚ) / 32.8) := by
  by_cases h : 32768 ≤ r
  · have hq : (32768 : ℚ) ≤ (r : ℚ) := by exact_mod_cast h
    simp [transform_value, floatOf, signed16, hq, h]
  · have hq : ¬ (32768 : ℚ) ≤ (r : ℚ) := by exact_mod_cast h
    simp [transform_value, floatOf, signed16, hq, h]

/-- C1: for raw values in [0, 65535], decode divides the signed reinterpretation
(r − 65536 when r ≥ 32768, else r) by 4096 for accelerometers and by 32.8 for
gyroscopes; in particular decode(0, Acc) = 0, decode(32768, Acc) = −8,
decode(4096, Acc) = 1 and decode(65535, Acc) = −1/4096. -/
theorem c1_decode_formula :
    (∀ r : ℕ, r ≤ 65535 →
      transform_value (.num r) true = some (((signed16 r : ℤ) : ℚ) / 4096) ∧
      transform_value (.num r) false = some (((signed16 r : ℤ) : ℚ) / 32.8)) ∧
    transform_value (.num 0) true = some 0 ∧
    transform_value (.num 32768) true = some (-8) ∧
    transform_value (.num 4096) true = some 1 ∧
    transform_value (.num 65535) true = some (-(1 / 4096)) := by
  refine ⟨fun r _ => transform_value_num r, ?_, ?_, ?_, ?_⟩ <;>
    norm_num [transform_value, floatOf]

/-- Witness for C1 at r = 5. -/
theorem c1_decode_formula_witness :
    transform_value (.num 5) true = some (((signed16 5 : ℤ) : ℚ) / 4096) ∧
    transform_value (.num 5) false = some (((signed16 5 : ℤ) : ℚ) / 32.8) :=
  c1_decode_formula.1 5 (by norm_num)

/-- C5: decode of any raw 16-bit value lands in [−8, 8) for accelerometers and
in [−1000, 1000) for gyroscopes. -/
theorem c5_decode_range (r : ℕ) (h : r ≤ 65535) :
    (∃ a, transform_value (.num r) true = some a ∧ -8 ≤ a ∧ a < 8) ∧
    (∃ g, transform_value (.num r) false = some g ∧ -1000 ≤ g ∧ g < 1000) := by
  obtain ⟨ha, hg⟩ := transform_value_num r
  have hsle : signed16 r ≤ 32767 := by
    unfold signed16; split <;> omega
  have hsge : -32768 ≤ signed16 r := by
    unfold signed16; split <;> omega
  have hqle : ((signed16 r : ℤ) : ℚ) ≤ 32767 := by exact_mod_cast hsle
  have hqge : (-32768 : ℚ) ≤ ((signed16 r : ℤ) : ℚ) := by exact_mod_cast hsge
  constructor
  · refine ⟨_, ha, ?_, ?_⟩
    · rw [le_div_iff₀ (by norm_num : (0:ℚ) < 4096)]; linarith
    · rw [div_lt_iff₀ (by norm_num : (0:ℚ) < 4096)]; linarith
  · refine ⟨_, hg, ?_, ?_⟩
    · rw [le_div_iff₀ (by norm_num : (0:ℚ) < 32.8)]
      norm_num; linarith
    · rw [div_lt_iff₀ (by norm_num : (0:ℚ) < 32.8)]
      norm_num; linarith

/-- Witness for C5 at r = 40000. -/
theorem c5_decode_range_witness :
    (∃ a, transform_value (.num 40000) true = some a ∧ -8 ≤ a ∧ a < 8) ∧
    (∃ g, transform_value (.num 40000) false = some g ∧ -1000 ≤ g ∧ g < 1000) :=
  c5_decode_range 40000 (by norm_num)

/-- C6 counterexample: the numeric input 65536 is outside [0, 65535], yet decode
does not return the invalid marker — it returns 0 ((65536 − 65536) / 4096). -/
theorem c6_counterexample :
    transform_value (.num 65536) true = some 0 ∧ (65535 : ℚ) < 65536 := by
  constructor
  · norm_num [transform_value, floatOf]
  · norm_num

/-- C6 amended: decode returns the invalid marker exactly when numeric
conversion of the input fails (non-numeric input); numeric inputs outside
[0, 65535] are not rejected but scaled by the same two-branch formula.  It
never raises (it is a total function into Option). -/
theorem c6_invalid_iff_nonnumeric (v : RawInput) (c : Bool) :
    transform_value v c = none ↔ v = RawInput.nonNum := by
  cases v with
  | num q =>
    cases c <;> simp [transform_value, floatOf] <;> split <;> simp
  | nonNum => simp [transform_value, floatOf]

/-- FINGER_NAMES from live_plotter.py / plot_from_json.py / advanced_plotter.py. -/
def FINGER_NAMES : List String :=
  ["IndexFinger", "MiddleFinger", "RingFinger", "LittleFinger", "Thumb", "Palm"]

/-- One entry of the dict built by `parse_frame_data`. -/
structure FingerRawData where
  acc_raw : List ℤ
  gyro_raw : List ℤ
deriving DecidableEq

/-- `LivePlotter.parse_frame_data` from live_plotter.py lines 311-325.  The
Python dict keyed by finger name (insertion-ordered) is modelled as an
association list.  The `data.getD _ 0` default is never used: every index
`i*6+k` with `i < 6`, `k < 6` is in bounds once `data.length = 36`. -/
def parse_frame_data (data : List ℤ) : Option (List (String × FingerRawData)) :=
  if data.length ≠ 36 then none
  else some <| (List.range 6).map fun i =>
    (FINGER_NAMES.getD i "",
     { acc_raw := [data.getD (i * 6) 0, data.getD (i * 6 + 1) 0, data.getD (i * 6 + 2) 0],
       gyro_raw := [data.getD (i * 6 + 3) 0, data.getD (i * 6 + 4) 0,
                    data.getD (i * 6 + 5) 0] })

lemma take3_drop (l : List ℤ) (k : ℕ) (h : k + 3 ≤ l.length) :
    (l.drop k).take 3 = [l.getD k 0, l.getD (k + 1) 0, l.getD (k + 2) 0] := by
  have h0 : k < l.length := by omega
  have h1 : k + 1 < l.length := by omega
  have h2 : k + 2 < l.length := by omega
  apply List.ext_getElem?
  intro j
  match j with
  | 0 => simp [List.getElem?_take, List.getElem?_drop, List.getD, List.getElem?_eq_getElem h0]
  | 1 => simp [List.getElem?_take, List.getElem?_drop, List.getD, List.getElem?_eq_getElem h1]
  | 2 =>
    simp [List.getElem?_take, List.getElem?_drop, List.getD, List.getElem?_eq_getElem h2]
  | (j + 3) => simp [List.getElem?_take]

/-- C2: `parse_frame_data` rejects every frame whose length is not 36 (before
any decoding — it performs none), and on a length-36 frame returns the 6
sensor units in canonical order, unit i owning the contiguous slice at offset
i*6, entries 0-2 as accelerometer and 3-5 as gyroscope values. -/
theorem c2_split_frame (data : List ℤ) :
    (data.length ≠ 36 → parse_frame_data data = none) ∧
    (data.length = 36 → ∃ parsed, parse_frame_data data = some parsed ∧
      parsed.length = 6 ∧
      ∀ i : ℕ, i < 6 →
        parsed[i]? = some (FINGER_NAMES.getD i "",
          { acc_raw := ((data.drop (i * 6)).take 6).take 3,
            gyro_raw := ((data.drop (i * 6)).take 6).drop 3 })) := by
  constructor
  · intro h; simp [parse_frame_data, h]
  · intro h
    unfold parse_frame_data
    rw [if_neg (by omega)]
    refine ⟨_, rfl, by simp, fun i hi => ?_⟩
    have hr : (List.range 6)[i]? = some i := by
      rw [List.getElem?_eq_getElem (by simpa using hi)]
      simp
    rw [List.getElem?_map, hr]
    have hacc : ((data.drop (i * 6)).take 6).take 3 = (data.drop (i * 6)).take 3 := by
      rw [List.take_take]; norm_num
    have hgyro : ((data.drop (i * 6)).take 6).drop 3 = (data.drop (i * 6 + 3)).take 3 := by
      rw [List.drop_take, List.drop_drop]
    rw [hacc, hgyro, take3_drop data (i * 6) (by omega), take3_drop data (i * 6 + 3) (by omega)]
    simp

/-- Witness for C2 at a wrong-length frame and at a concrete 36-value frame. -/
theorem c2_split_frame_witness :
    parse_frame_data [1, 2, 3] = none ∧
    ∃ parsed, parse_frame_data (List.range 36 |>.map Int.ofNat) = some parsed ∧
      parsed.length = 6 ∧
      ∀ i : ℕ, i < 6 →
        parsed[i]? = some (FINGER_NAMES.getD i "",
          { acc_raw := (((List.range 36 |>.map Int.ofNat).drop (i * 6)).take 6).take 3,
            gyro_raw := (((List.range 36 |>.map Int.ofNat).drop (i * 6)).take 6).drop 3 }) :=
  ⟨(c2_split_frame _).1 (by decide),
   (c2_split_frame _).2 (by simp)⟩

/-- Python `collections.deque(maxlen := n)` append: keep the last n entries. -/
def dequePush (maxlen : ℕ) (b : List α) (x : α) : List α :=
  let grown := b ++ [x]
  grown.drop (grown.length - maxlen)

lemma dequePush_length (b : List α) (x : α) :
    (dequePush 500 b x).length = min (b.length + 1) 500 := by
  simp only [dequePush, List.length_drop, List.length_append, List.length_cons,
    List.length_nil]
  omega

/-- One (hand, sensor-class) stream of a `FingerWindow` (live_plotter.py lines
22-45): the bounded `deque(maxlen=500)` buffer and the matching entry of the
`total_frames` counter dict. -/
structure FWStream where
  buf : List (List (Option ℚ))
  total : ℕ
deriving DecidableEq

/-- Initial / cleared stream state (`__init__` lines 30-43, `clear` lines 256-262). -/
def FWStream.init : FWStream := ⟨[], 0⟩

/-- The per-stream body of `FingerWindow.add_data` (live_plotter.py lines
122-132): append and count only when every component is valid. -/
def FWStream.addSample (s : FWStream) (vals : List (Option ℚ)) : FWStream :=
  if vals.all Option.isSome then
    { buf := dequePush 500 s.buf vals, total := s.total + 1 }
  else s

/-- `start_frame` of `FingerWindow.update` (live_plotter.py lines 134-163),
with `max_frames = 200`. -/
def FWStream.visibleStart (s : FWStream) : ℕ :=
  if s.total > 200 then s.total - 200 else 0

/-- `display_data` of `FingerWindow.update`: `array[-200:]` of the buffer when
`total > 200`, else the whole buffer. -/
def FWStream.visibleSlice (s : FWStream) : List (List (Option ℚ)) :=
  if s.total > 200 then s.buf.drop (s.buf.length - 200) else s.buf

lemma addSample_accepted (s : FWStream) (x : List (Option ℚ))
    (hx : x.all Option.isSome = true) :
    s.addSample x = ⟨dequePush 500 s.buf x, s.total + 1⟩ := by
  simp [FWStream.addSample, hx]

/-- After folding accepted samples from the cleared state, the counter equals
the number of samples and the buffer holds exactly the most recent 500. -/
lemma fold_addSample_spec (l : List (List (Option ℚ)))
    (hacc : ∀ x ∈ l, x.all Option.isSome = true) :
    (l.foldl FWStream.addSample FWStream.init).total = l.length ∧
    (l.foldl FWStream.addSample FWStream.init).buf = l.drop (l.length - 500) := by
  induction l using List.reverseRecOn with
  | nil => simp [FWStream.init]
  | append_singleton l x ih =>
    have hl : ∀ y ∈ l, y.all Option.isSome = true := fun y hy =>
      hacc y (by simp [hy])
    have hx : x.all Option.isSome = true := hacc x (by simp)
    obtain ⟨iht, ihb⟩ := ih hl
    rw [List.foldl_append, List.foldl_cons, List.foldl_nil,
      addSample_accepted _ _ hx]
    refine ⟨by simp [iht], ?_⟩
    simp only [dequePush, ihb, iht]
    rw [← List.drop_append_of_le_length (by omega : l.length - 500 ≤ l.length),
      List.drop_drop]
    have harg : l.length - 500 + ((List.drop (l.length - 500) (l ++ [x])).length - 500)
        = (l ++ [x]).length - 500 := by
      simp only [List.length_drop, List.length_append, List.length_cons,
        List.length_nil]
      omega
    rw [harg]

/-- C3: for any sequence of accepted samples after start/clear, totalSeen is at
least the buffer length, the buffer keeps at most the last 500 samples (oldest
evicted first), the visible slice is the last min(totalSeen, 200) buffered
entries starting at max(0, totalSeen − 200); after 700 accepted samples:
buffer length 500, totalSeen 700, visible length 200, visibleStart 500. -/
theorem c3_rolling_window (l : List (List (Option ℚ)))
    (hacc : ∀ x ∈ l, x.all Option.isSome = true) (s : FWStream)
    (hs : s = l.foldl FWStream.addSample FWStream.init) :
    s.buf.length ≤ s.total ∧
    s.buf.length ≤ 500 ∧
    s.total = l.length ∧
    s.buf = l.drop (l.length - 500) ∧
    s.visibleSlice.length = min s.total 200 ∧
    (s.visibleStart : ℤ) = max 0 ((s.total : ℤ) - 200) ∧
    s.visibleSlice = s.buf.drop (s.buf.length - min s.total 200) ∧
    (l.length = 700 →
      s.buf.length = 500 ∧ s.total = 700 ∧
      s.visibleSlice.length = 200 ∧ s.visibleStart = 500) := by
  obtain ⟨ht, hb⟩ := fold_addSample_spec l hacc
  rw [← hs] at ht hb
  have hblen : s.buf.length = l.length - (l.length - 500) := by
    rw [hb, List.length_drop]
  refine ⟨by omega, by omega, ht, hb, ?_, ?_, ?_, ?_⟩
  · unfold FWStream.visibleSlice
    rw [ht]
    by_cases h2 : l.length > 200
    · rw [if_pos h2, List.length_drop]; omega
    · rw [if_neg h2]; omega
  · unfold FWStream.visibleStart
    rw [ht]
    split <;> omega
  · unfold FWStream.visibleSlice
    rw [ht]
    by_cases h2 : l.length > 200
    · rw [if_pos h2,
        show s.buf.length - 200 = s.buf.length - min l.length 200 by omega]
    · rw [if_neg h2,
        show s.buf.length - min l.length 200 = 0 by omega, List.drop_zero]
  · intro h700
    have h2 : l.length > 200 := by omega
    refine ⟨by omega, by omega, ?_, ?_⟩
    · unfold FWStream.visibleSlice
      rw [ht, if_pos h2, List.length_drop]
      omega
    · unfold FWStream.visibleStart
      rw [ht, if_pos h2]
      omega

/-- Witness for C3: 700 accepted all-zero samples. -/
theorem c3_rolling_window_witness :
    ((List.replicate 700 ([some 0, some 0, some 0] : List (Option ℚ))).foldl
        FWStream.addSample FWStream.init).buf.length = 500 ∧
    ((List.replicate 700 ([some 0, some 0, some 0] : List (Option ℚ))).foldl
        FWStream.addSample FWStream.init).total = 700 ∧
    ((List.replicate 700 ([some 0, some 0, some 0] : List (Option ℚ))).foldl
        FWStream.addSample FWStream.init).visibleSlice.length = 200 ∧
    ((List.replicate 700 ([some 0, some 0, some 0] : List (Option ℚ))).foldl
        FWStream.addSample FWStream.init).visibleStart = 500 :=
  (c3_rolling_window _ (by intro x hx; rw [List.eq_of_mem_replicate hx]; rfl)
    _ rfl).2.2.2.2.2.2.2 (by rw [List.length_replicate])

/-- C7: a sample with any invalid component is a no-op on its stream (buffer
and counter unchanged); a sample is appended and counted exactly when all of
its components are valid. -/
theorem c7_invalid_sample_noop (s : FWStream) (x : List (Option ℚ)) :
    (none ∈ x → s.addSample x = s) ∧
    ((∀ v ∈ x, v.isSome) →
      (s.addSample x).total = s.total + 1 ∧
      (s.addSample x).buf = dequePush 500 s.buf x) := by
  constructor
  · intro hmem
    have hfalse : ¬ (x.all Option.isSome = true) := by
      rw [List.all_eq_true]
      intro hall
      simpa using hall none hmem
    simp [FWStream.addSample, hfalse]
  · intro hall
    have hx : x.all Option.isSome = true := by
      rw [List.all_eq_true]; exact fun v hv => hall v hv
    simp [FWStream.addSample, hx]

/-- Witness for C7: one rejected and one accepted sample on the cleared stream. -/
theorem c7_invalid_sample_noop_witness :
    (FWStream.init.addSample [some 1, none, some 2] = FWStream.init) ∧
    (FWStream.init.addSample [some 1, some 2, some 3]).total = FWStream.init.total + 1 :=
by
  constructor
  · exact (c7_invalid_sample_noop FWStream.init [some 1, none, some 2]).1 (by simp)
  · apply And.left
    apply (c7_invalid_sample_noop FWStream.init [some 1, some 2, some 3]).2
    intro v hv
    fin_cases hv <;> rfl

/-- `gesture_recording` object of the persisted JSON (data_processor.py lines
84-87): each hand's frame list wrapped in a singleton list. -/
structure GestureRecording where
  leftHandDataList : List (List (List ℤ))
  rightHandDataList : List (List (List ℤ))
deriving DecidableEq

/-- The dict written by `DataProcessor.save_gesture` (data_processor.py lines
72-88), minus the I/O around it.  The timestamp and gesture number are taken
as parameters (the code reads the clock and a counter). -/
structure GestureFile where
  session_name : String
  user_name : String
  timestamp : String
  gesture_number : ℕ
  custom_name : Option String
  leftHandDevice : String
  rightHandDevice : String
  gesture_recording : GestureRecording
deriving DecidableEq

/-- `DataProcessor.save_gesture` (data_processor.py lines 37-96): the persisted
record, with both raw hand streams stored unmodified inside singleton lists. -/
def save_gesture (session_name user_name timestamp : String) (gesture_number : ℕ)
    (left_data right_data : List (List ℤ))
    (left_device_id right_device_id : String) (custom_name : Option String) :
    GestureFile :=
  { session_name := session_name
    user_name := user_name
    timestamp := timestamp
    gesture_number := gesture_number
    custom_name := custom_name
    leftHandDevice := left_device_id
    rightHandDevice := right_device_id
    gesture_recording :=
      { leftHandDataList := [left_data], rightHandDataList := [right_data] } }

/-- Metadata dict of `load_gesture_data` (plot_from_json.py lines 66-72). -/
structure GestureMetadata where
  session_name : String
  user_name : String
  gesture_name : Option String
  timestamp : String
deriving DecidableEq

/-- `load_gesture_data` (plot_from_json.py lines 61-88):
`gesture_recording.get('leftHandDataList', [[]])[0]` — element 0 of the stored
singleton wrapper — and likewise for the right hand. -/
def load_gesture_data (f : GestureFile) :
    GestureMetadata × List (List ℤ) × List (List ℤ) :=
  (⟨f.session_name, f.user_name, f.custom_name, f.timestamp⟩,
   f.gesture_recording.leftHandDataList.getD 0 [],
   f.gesture_recording.rightHandDataList.getD 0 [])

/-- The `acc` triple of `convert_frame_data` for one finger of one frame
(plot_from_json.py lines 102-106). -/
def acc_slice (frame : List ℤ) (finger_idx : ℕ) : List (Option ℚ) :=
  [transform_value (.num (frame.getD (finger_idx * 6) 0)) true,
   transform_value (.num (frame.getD (finger_idx * 6 + 1) 0)) true,
   transform_value (.num (frame.getD (finger_idx * 6 + 2) 0)) true]

/-- The `gyro` triple of `convert_frame_data` for one finger of one frame
(plot_from_json.py lines 108-112). -/
def gyro_slice (frame : List ℤ) (finger_idx : ℕ) : List (Option ℚ) :=
  [transform_value (.num (frame.getD (finger_idx * 6 + 3) 0)) false,
   transform_value (.num (frame.getD (finger_idx * 6 + 4) 0)) false,
   transform_value (.num (frame.getD (finger_idx * 6 + 5) 0)) false]

/-- The per-finger series built by `convert_frame_data`. -/
structure ConvSeries where
  acc : List (List (Option ℚ))
  gyro : List (List (Option ℚ))
deriving DecidableEq

/-- `convert_frame_data` (plot_from_json.py lines 91-117), one finger at a
time: frames whose length is not 36 are skipped, others contribute one acc
and one gyro triple each, in input order. -/
def convert_frame_data : List (List ℤ) → ℕ → ConvSeries
  | [], _ => ⟨[], []⟩
  | frame :: rest, finger_idx =>
    let r := convert_frame_data rest finger_idx
    if frame.length ≠ 36 then r
    else ⟨acc_slice frame finger_idx :: r.acc, gyro_slice frame finger_idx :: r.gyro⟩

lemma convert_frame_data_eq (frames : List (List ℤ)) (i : ℕ) :
    convert_frame_data frames i =
      ⟨(frames.filter fun fr => decide (fr.length = 36)).map fun fr => acc_slice fr i,
       (frames.filter fun fr => decide (fr.length = 36)).map fun fr => gyro_slice fr i⟩ := by
  induction frames with
  | nil => rfl
  | cons frame rest ih =>
    by_cases h : frame.length = 36
    · simp [convert_frame_data, List.filter, h, ih]
    · simp [convert_frame_data, List.filter, h, ih]

/-- C4: saving a pair of hand streams with `save_gesture` and loading the
record back through `load_gesture_data` / `convert_frame_data` yields, per
hand and per sensor unit, converted acc and gyro series that are exactly the
per-frame conversions of the stream's length-36 frames, in original order; in
particular their length is the number of length-36 frames of that stream. -/
theorem c4_save_load_roundtrip (session user ts : String) (gn : ℕ)
    (left_data right_data : List (List ℤ)) (ldev rdev : String)
    (cname : Option String) (i : Fin 6) :
    (convert_frame_data
        (load_gesture_data
          (save_gesture session user ts gn left_data right_data ldev rdev cname)).2.1
        i).acc =
      (left_data.filter fun fr => decide (fr.length = 36)).map
        (fun fr => acc_slice fr i) ∧
    (convert_frame_data
        (load_gesture_data
          (save_gesture session user ts gn left_data right_data ldev rdev cname)).2.1
        i).gyro =
      (left_data.filter fun fr => decide (fr.length = 36)).map
        (fun fr => gyro_slice fr i) ∧
    (convert_frame_data
        (load_gesture_data
          (save_gesture session user ts gn left_data right_data ldev rdev cname)).2.1
        i).acc.length = left_data.countP (fun fr => decide (fr.length = 36)) ∧
    (convert_frame_data
        (load_gesture_data
          (save_gesture session user ts gn left_data right_data ldev rdev cname)).2.2
        i).acc =
      (right_data.filter fun fr => decide (fr.length = 36)).map
        (fun fr => acc_slice fr i) ∧
    (convert_frame_data
        (load_gesture_data
          (save_gesture session user ts gn left_data right_data ldev rdev cname)).2.2
        i).gyro =
      (right_data.filter fun fr => decide (fr.length = 36)).map
        (fun fr => gyro_slice fr i) ∧
    (convert_frame_data
        (load_gesture_data
          (save_gesture session user ts gn left_data right_data ldev rdev cname)).2.2
        i).acc.length = right_data.countP (fun fr => decide (fr.length = 36)) := by
  have hload : (load_gesture_data
      (save_gesture session user ts gn left_data right_data ldev rdev cname)).2.1
      = left_data := rfl
  have hloadr : (load_gesture_data
      (save_gesture session user ts gn left_data right_data ldev rdev cname)).2.2
      = right_data := rfl
  rw [hload, hloadr, convert_frame_data_eq, convert_frame_data_eq]
  refine ⟨rfl, rfl, ?_, rfl, rfl, ?_⟩ <;>
    simp [List.countP_eq_length_filter]

/-- Failure modes of the comparison renderers before plotting. -/
inductive PlotError where
  | noColumns
  | rangeError
deriving DecidableEq

/-- The column-selection prologue shared by `plot_4way_comparison`
(advanced_plotter.py lines 152-164) and `plot_2way_comparison` (lines
248-260): the `if not columns` guard, the range check, then the Python slice
`columns[start_idx-1:end_idx]`. -/
def select_column_range (columns : List String) (start_idx end_idx : ℤ) :
    Except PlotError (List String) :=
  if columns = [] then .error .noColumns
  else if start_idx < 1 ∨ end_idx > columns.length ∨ start_idx > end_idx then
    .error .rangeError
  else .ok ((columns.take end_idx.toNat).drop (start_idx - 1).toNat)

/-- C9 counterexample: with zero available converted columns the range (1, 3)
satisfies the claim's RangeError condition (end exceeds the column count), yet
the renderers abort with the distinct no-columns error, not RangeError. -/
theorem c9_counterexample :
    select_column_range [] 1 3 = .error .noColumns ∧
    PlotError.noColumns ≠ PlotError.rangeError ∧
    ((1 : ℤ) < 1 ∨ (3 : ℤ) > ([] : List String).length ∨ (1 : ℤ) > 3) := by
  refine ⟨rfl, by decide, ?_⟩
  right; left; decide

/-- C9 amended: provided the requested hand has at least one available
converted column, the renderers fail with RangeError exactly when start < 1,
end > column count, or start > end; otherwise they select exactly the columns
at 1-based positions start through end.  (With zero available columns they
abort earlier with a distinct no-columns error.) -/
theorem c9_column_range (columns : List String) (hne : columns ≠ [])
    (start_idx end_idx : ℤ) :
    (select_column_range columns start_idx end_idx = .error .rangeError ↔
      (start_idx < 1 ∨ end_idx > columns.length ∨ start_idx > end_idx)) ∧
    (1 ≤ start_idx → end_idx ≤ columns.length → start_idx ≤ end_idx →
      ∃ sel, select_column_range columns start_idx end_idx = .ok sel ∧
        (sel.length : ℤ) = end_idx - start_idx + 1 ∧
        ∀ j : ℕ, (j : ℤ) < end_idx - start_idx + 1 →
          sel[j]? = columns[(start_idx - 1).toNat + j]?) := by
  constructor
  · unfold select_column_range
    rw [if_neg hne]
    by_cases h : start_idx < 1 ∨ end_idx > columns.length ∨ start_idx > end_idx
    · rw [if_pos h]
      simp [h]
    · rw [if_neg h]
      simp [h]
  · intro h1 h2 h3
    have hcond : ¬ (start_idx < 1 ∨ end_idx > columns.length ∨ start_idx > end_idx) := by
      push_neg
      exact ⟨h1, h2, h3⟩
    refine ⟨_, by unfold select_column_range; rw [if_neg hne, if_neg hcond], ?_, ?_⟩
    · simp only [List.length_drop, List.length_take]
      omega
    · intro j hj
      rw [List.getElem?_drop, List.getElem?_take]
      rw [if_pos (by omega)]

/-- Witness for C9 amended: three columns, range (1, 3). -/
theorem c9_column_range_witness :
    (select_column_range ["a", "b", "c"] 1 3 = .error .rangeError ↔
      ((1 : ℤ) < 1 ∨ (3 : ℤ) > (["a", "b", "c"] : List String).length ∨ (1 : ℤ) > 3)) ∧
    ∃ sel, select_column_range ["a", "b", "c"] 1 3 = .ok sel ∧
      (sel.length : ℤ) = 3 - 1 + 1 ∧
      ∀ j : ℕ, (j : ℤ) < 3 - 1 + 1 →
        sel[j]? = (["a", "b", "c"] : List String)[((1 : ℤ) - 1).toNat + j]? := by
  have h := c9_column_range ["a", "b", "c"] (by decide) 1 3
  exact ⟨h.1, h.2 (by decide) (by decide) (by decide)⟩

/-- One `FingerWindow`'s data state (live_plotter.py lines 22-45): the four
(hand, sensor-class) streams. -/
structure FingerWindow where
  left_acc : FWStream
  left_gyro : FWStream
  right_acc : FWStream
  right_gyro : FWStream
deriving DecidableEq

/-- A fresh / cleared finger window (`__init__` lines 30-43 and `clear` lines
256-262 both leave empty deques and zero counters). -/
def FingerWindow.init : FingerWindow := ⟨.init, .init, .init, .init⟩

/-- `FingerWindow.add_data` (live_plotter.py lines 122-132): pick the hand's
streams, then append acc and gyro independently, each only when all of its
components are valid. -/
def FingerWindow.add_data (fw : FingerWindow) (hand : String)
    (acc_data gyro_data : List (Option ℚ)) : FingerWindow :=
  if hand == "Left" then
    { fw with
      left_acc := fw.left_acc.addSample acc_data
      left_gyro := fw.left_gyro.addSample gyro_data }
  else
    { fw with
      right_acc := fw.right_acc.addSample acc_data
      right_gyro := fw.right_gyro.addSample gyro_data }

/-- `LivePlotter` state (live_plotter.py lines 281-290): the running flag and
the six finger windows, indexed in `FINGER_NAMES` order (index 0 is
IndexFinger).  The `_first_frame_logged` dict only feeds debug printing and is
omitted. -/
structure LivePlotter where
  is_running : Bool
  windows : Fin 6 → FingerWindow

/-- `LivePlotter.__init__`. -/
def LivePlotter.init : LivePlotter := ⟨false, fun _ => .init⟩

/-- `LivePlotter.start` (live_plotter.py lines 399-415): set the running flag
and clear every window. -/
def LivePlotter.start (_p : LivePlotter) : LivePlotter :=
  ⟨true, fun _ => .init⟩

/-- `LivePlotter.add_data` (live_plotter.py lines 327-392).  Returns the new
state together with whether `_update_all_displays` (recompute-and-redraw) was
triggered.  The early returns drop empty, all-zero and wrong-length frames;
then each finger's slice is converted and forwarded to its window when both
triples are fully valid; finally, while running, a redraw fires when the
IndexFinger left + right accelerometer buffer lengths sum to a multiple of
ten.  The body of the per-finger loop (lines 363-384) is split out as
`livePerFinger`. -/
def livePerFinger (p : LivePlotter) (hand : String)
    (frame_data : List (String × FingerRawData)) (i : Fin 6) : FingerWindow :=
  let finger_raw := (frame_data.getD i ("", ⟨[], []⟩)).2
  let acc_converted :=
    finger_raw.acc_raw.map fun v => transform_value (.num (v : ℚ)) true
  let gyro_converted :=
    finger_raw.gyro_raw.map fun v => transform_value (.num (v : ℚ)) false
  if acc_converted.all Option.isSome && gyro_converted.all Option.isSome then
    (p.windows i).add_data hand acc_converted gyro_converted
  else p.windows i

def LivePlotter.add_data (p : LivePlotter) (hand : String) (data : List ℤ) :
    LivePlotter × Bool :=
  if data = [] ∨ data.length = 0 then (p, false)
  else if data.all (fun v => v == 0) then (p, false)
  else if data.length ≠ 36 then (p, false)
  else
    match parse_frame_data data with
    | none => (p, false)
    | some frame_data =>
      let p' : LivePlotter := { p with windows := livePerFinger p hand frame_data }
      let redraw := p.is_running &&
        ((p'.windows 0).left_acc.buf.length + (p'.windows 0).right_acc.buf.length)
          % 10 == 0
      (p', redraw)

/-- C10: a length-36 frame whose values are all zero is silently dropped by
`LivePlotter.add_data`: the state (every window's buffers and counters) is
unchanged and no redraw is triggered, although the frame passes the length-36
validity condition. -/
theorem c10_zero_frame_dropped (p : LivePlotter) (hand : String)
    (data : List ℤ) (hlen : data.length = 36) (hz : ∀ v ∈ data, v = 0) :
    p.add_data hand data = (p, false) := by
  unfold LivePlotter.add_data
  rw [if_neg (by
    rintro (h | h)
    · rw [h] at hlen; simp at hlen
    · omega)]
  rw [if_pos (by
    rw [List.all_eq_true]
    intro v hv
    rw [hz v hv]
    rfl)]

/-- Witness for C10: the literal all-zero 36-value frame on a fresh plotter. -/
theorem c10_zero_frame_dropped_witness :
    LivePlotter.init.add_data "Left" (List.replicate 36 0) =
      (LivePlotter.init, false) :=
  c10_zero_frame_dropped LivePlotter.init "Left" (List.replicate 36 0)
    (by rw [List.length_replicate])
    (fun v hv => List.eq_of_mem_replicate hv)

/-- A concrete valid (non-zero, length-36) frame for exercising the live path. -/
def onesFrame : List ℤ := List.replicate 36 1

/-- Converted accelerometer triple of `onesFrame` for any finger. -/
def onesAcc : List (Option ℚ) := [some (1 / 4096), some (1 / 4096), some (1 / 4096)]

/-- Converted gyroscope triple of `onesFrame` for any finger (1 / 32.8 = 5/164). -/
def onesGyro : List (Option ℚ) := [some (5 / 164), some (5 / 164), some (5 / 164)]

/-- `parse_frame_data onesFrame`: every finger slice is [1,1,1] / [1,1,1]. -/
def onesParsed : List (String × FingerRawData) :=
  (List.range 6).map fun k =>
    (FINGER_NAMES.getD k "", { acc_raw := [1, 1, 1], gyro_raw := [1, 1, 1] })

lemma livePerFinger_ones (p : LivePlotter) (i : Fin 6) :
    livePerFinger p "Left" onesParsed i =
      (p.windows i).add_data "Left" onesAcc onesGyro := by
  have htva : transform_value (.num 1) true = some (1 / 4096) := by
    norm_num [transform_value, floatOf]
  have htvg : transform_value (.num 1) false = some (5 / 164) := by
    norm_num [transform_value, floatOf]
  fin_cases i <;>
    simp [livePerFinger, onesParsed, FINGER_NAMES, htva, htvg, onesAcc, onesGyro]

lemma add_data_ones (p : LivePlotter) :
    p.add_data "Left" onesFrame =
      (⟨p.is_running, livePerFinger p "Left" onesParsed⟩,
       p.is_running &&
         (((livePerFinger p "Left" onesParsed 0).left_acc.buf.length +
           (livePerFinger p "Left" onesParsed 0).right_acc.buf.length) % 10 == 0)) := by
  have hp : parse_frame_data onesFrame = some onesParsed := by decide
  unfold LivePlotter.add_data
  rw [if_neg (by decide), if_neg (by decide), if_neg (by decide), hp]

/-- The live session used for the redraw-cadence analysis: `start()` on a
fresh plotter, then n accepted left-hand `onesFrame` frames. -/
def liveState : ℕ → LivePlotter
  | 0 => LivePlotter.init.start
  | n + 1 => ((liveState n).add_data "Left" onesFrame).1

lemma liveState_lengths (n : ℕ) :
    (liveState n).is_running = true ∧
    ((liveState n).windows 0).left_acc.buf.length = min n 500 ∧
    ((liveState n).windows 0).right_acc.buf.length = 0 := by
  induction n with
  | zero => exact ⟨rfl, rfl, rfl⟩
  | succ n ih =>
    obtain ⟨hr, hl, hrr⟩ := ih
    have hstep : liveState (n + 1) =
        ⟨(liveState n).is_running, livePerFinger (liveState n) "Left" onesParsed⟩ := by
      show ((liveState n).add_data "Left" onesFrame).1 = _
      rw [add_data_ones]
    rw [hstep]
    dsimp only
    refine ⟨hr, ?_, ?_⟩
    · rw [livePerFinger_ones]
      simp only [FingerWindow.add_data]
      rw [if_pos (by decide)]
      dsimp only
      simp only [FWStream.addSample]
      rw [if_pos (by decide)]
      rw [dequePush_length, hl]
      omega
    · rw [livePerFinger_ones]
      simp only [FingerWindow.add_data]
      rw [if_pos (by decide)]
      exact hrr

lemma redraw_ones (n : ℕ) :
    ((liveState n).add_data "Left" onesFrame).2 = (min (n + 1) 500 % 10 == 0) := by
  obtain ⟨hr, hl, hrr⟩ := liveState_lengths n
  rw [add_data_ones]
  dsimp only
  rw [hr, livePerFinger_ones]
  simp only [FingerWindow.add_data]
  rw [if_pos (by decide)]
  dsimp only
  simp only [FWStream.addSample]
  rw [if_pos (by decide), dequePush_length, hl, hrr]
  simp only [Bool.true_and, Nat.add_zero]
  rw [show min (min n 500 + 1) 500 = min (n + 1) 500 by omega]

/-- C8 counterexample: with a single-hand stream, the 500th and the 501st
accepted samples both trigger a redraw (the IndexFinger buffer length is
capped at 500, and 500 % 10 = 0), so redraw is not triggered exactly on every
10th accepted sample: the 501st is not a multiple of 10 yet redraws. -/
theorem c8_counterexample :
    ((liveState 500).add_data "Left" onesFrame).2 = true ∧ ¬ (501 % 10 = 0) := by
  rw [redraw_ones]
  norm_num

/-- C8 amended: while running, a redraw is triggered after an accepted sample
exactly when the IndexFinger accelerometer buffer length (the sample count
capped at the 500-entry storage bound; left + right, here a single left-hand
stream) is divisible by 10.  Below the cap this is every 10th accepted
sample; once the buffer saturates at 500, it holds on every later sample. -/
theorem c8_redraw_cadence (n : ℕ) :
    ((liveState n).add_data "Left" onesFrame).2 = (min (n + 1) 500 % 10 == 0) :=
  redraw_ones n

end GestureData

